import Mathlib

/-!
Shallow embedding of the Sarek wrapper modules src/wrapper/sarek/run.py and
src/wrapper/sarek/check.py.

The Python code is stateful with observable side effects, so each operation
is embedded as a pure function from the configuration record to the updated
record together with an ordered trace of effects (prints, critical log
lines, one external-process invocation) and the exit code passed to
sys.exit, when the operation terminates the process.

The external workflow-engine invocation on run.py line 24 is stubbed by a
boolean parameter giving the outcome the code reads off it; a second,
literal model of map keeps the attribute lookup subprocess.check explicit,
with the helper names of the subprocess module interface modelled from the
spec.
-/

namespace SarekWrapper

/-- One observable effect of the wrapper code: a line printed to standard
output, the in-place overwrite of the tsv field (run.py line 23), the
external-process invocation with its argument list, or a critical-level log
line. -/
inductive Event where
  | print (s : String)
  | setTsv (s : String)
  | invoke (cmd : List String)
  | logCritical (s : String)
  deriving DecidableEq, Repr

/-- The configuration record built by Sarek.__init__ (run.py lines 15-19):
tsv holds the input sheet path, mappedfiles is None until the mapping stage
records an output location. The source writes it as a dict literal but
accesses it with attribute syntax throughout, so it is embedded as a
two-field record. -/
structure Config where
  tsv : String
  mappedfiles : Option String
  deriving DecidableEq, Repr

/-- Sarek.__init__ (run.py lines 15-19): stores the given path and leaves
mappedfiles unset. -/
def init (tsv_path : String) : Config :=
  { tsv := tsv_path, mappedfiles := none }

/-- The fixed argument list of the external invocation on run.py line 24. -/
def mapCmd : List String := ["nextflow", "run", "SciLifeLab/Sarek/main.nf", "--tools"]

/-- Outcome of one stage call: the configuration after the call, the ordered
effect trace, and the exit code handed to sys.exit when the stage terminates
the process (none when it returns normally). -/
structure StageResult where
  config : Config
  events : List Event
  exited : Option Nat
  deriving DecidableEq, Repr

/-- Sarek.map (run.py lines 21-26) with the external invocation stubbed by
its boolean outcome: prints the current tsv, overwrites tsv with the
constant, invokes the fixed command line, and on success records the
mapped-output location; it never exits and has no other error channel. -/
def map (cfg : Config) (success : Bool) : StageResult :=
  let cfg1 : Config := { cfg with tsv := "something new" }
  let cfg2 : Config :=
    if success then { cfg1 with mappedfiles := some "some path" } else cfg1
  { config := cfg2
    events := [Event.print cfg.tsv, Event.setTsv "something new", Event.invoke mapCmd]
    exited := none }

/-- Sarek.annotate (run.py lines 28-32): prints the current tsv; when
mappedfiles is None it logs a critical message and calls sys.exit(1),
otherwise it returns normally without touching the configuration. -/
def annotate (cfg : Config) : StageResult :=
  match cfg.mappedfiles with
  | none =>
      { config := cfg
        events := [Event.print cfg.tsv,
                   Event.logCritical "Annotation needs mapped files"]
        exited := some 1 }
  | some _ =>
      { config := cfg
        events := [Event.print cfg.tsv]
        exited := none }

/-- check_nextflow (check.py lines 18-20): logs a critical line saying the
tool is not installed, then returns True unconditionally. -/
def check_nextflow : List Event × Bool :=
  ([Event.logCritical "Nextflow not installed"], true)

/-- check_singularity (check.py lines 22-24): logs a critical line saying
the tool is not installed, then returns True unconditionally. -/
def check_singularity : List Event × Bool :=
  ([Event.logCritical "Singularity not installed"], true)

/-- The exit decision on check.py lines 14-15 as a function of the two
sub-check results: sys.exit(1) when either is False, normal return (none)
otherwise. -/
def check_gate (a b : Bool) : Option Nat :=
  if !a || !b then some 1 else none

/-- check (check.py lines 10-15): prints the greeting, prints the loud line
when quiet is false, runs both sub-checks and applies the exit decision to
their results. -/
def check (quiet : Bool) : List Event × Option Nat :=
  let greet := [Event.print "hello world"]
  let loud := if quiet then greet else greet ++ [Event.print "THIS IS LOUD"]
  (loud ++ check_nextflow.1 ++ check_singularity.1,
    check_gate check_nextflow.2 check_singularity.2)

/-- A Python runtime error surfacing to the caller. -/
inductive PyError where
  | attributeError (modName attr : String)
  deriving DecidableEq, Repr

/-- Modelled from the spec: the helper names exposed by the Python
subprocess module interface, which run.py line 24 queries for a helper named
check. Per the spec (sections 5 and 9), that call "does not actually exist
in any subprocess interface"; real subprocess interfaces expose exit-status
and output helpers, none named check. -/
def subprocessHelpers : List String :=
  ["call", "check_call", "check_output", "run", "Popen"]

/-- Sarek.map as literally written (run.py lines 21-26): the print and the
tsv overwrite run first; the attribute lookup subprocess.check then either
resolves, letting the stubbed invocation proceed as in map, or raises
AttributeError, which propagates to the caller with the mutations made so
far kept in place and mappedfiles untouched. -/
def mapLiteral (cfg : Config) (success : Bool) : StageResult × Option PyError :=
  if subprocessHelpers.contains "check" then
    (map cfg success, none)
  else
    ({ config := { cfg with tsv := "something new" }
       events := [Event.print cfg.tsv, Event.setTsv "something new"]
       exited := none },
      some (PyError.attributeError "subprocess" "check"))

/-- C1: annotate terminates the process with exit status 1 and logs the
critical message exactly when mappedfiles is unset, and after a map whose
stubbed external invocation succeeded, annotate completes without
terminating the process. -/
theorem annotate_exit_iff_unmapped (cfg : Config) (p : String) :
    (((annotate cfg).exited = some 1 ∧
        Event.logCritical "Annotation needs mapped files" ∈ (annotate cfg).events) ↔
      cfg.mappedfiles = none) ∧
    (annotate (map (init p) true).config).exited = none := by
  rcases cfg with ⟨t, mf⟩
  cases mf <;> simp [annotate, map, init]

/-- C2: constructing a runner from any input sheet path yields a
configuration whose mappedfiles field is unset and whose tsv field equals
the given path. -/
theorem init_config_fields (p : String) :
    (init p).mappedfiles = none ∧ (init p).tsv = p :=
  ⟨rfl, rfl⟩

/-- C3: from any runner state, a map whose external invocation reports
success records a non-empty mapped-output location. -/
theorem map_success_sets_mappedfiles (cfg : Config) :
    ∃ v, (map cfg true).config.mappedfiles = some v ∧ v ≠ "" :=
  ⟨"some path", rfl, by decide⟩

/-- C4 counterexample: at the concrete runner built from samples.tsv, a map
whose external invocation fails leaves mappedfiles unset but returns with no
exit, so no failure is signalled to the caller, refuting the claim as
stated. -/
theorem map_failure_no_signal_cex :
    ¬ ((map (init "samples.tsv") false).config.mappedfiles = none ∧
        (map (init "samples.tsv") false).exited ≠ none) := by
  decide

/-- C4 amended: a map whose external invocation fails leaves mappedfiles
exactly as it was and returns normally, signalling no error to its caller
(silent continuation). -/
theorem map_failure_silent (cfg : Config) :
    (map cfg false).config.mappedfiles = cfg.mappedfiles ∧
    (map cfg false).exited = none := by
  simp [map]

/-- C5: each tool sub-check logs exactly one critical line stating the tool
is not installed and returns true unconditionally. -/
theorem tool_checks_log_and_return_true :
    check_nextflow = ([Event.logCritical "Nextflow not installed"], true) ∧
    check_singularity = ([Event.logCritical "Singularity not installed"], true) :=
  ⟨rfl, rfl⟩

/-- C6: the exit decision of check fires with the non-zero code 1 exactly
when at least one sub-check result is false, returns normally exactly when
both are true, and the check function as written therefore always returns
normally, since both sub-checks return true. -/
theorem check_exit_iff_subcheck_false (a b quiet : Bool) :
    (check_gate a b = some 1 ↔ (a = false ∨ b = false)) ∧
    (check_gate a b = none ↔ (a = true ∧ b = true)) ∧
    (check quiet).2 = none := by
  cases a <;> cases b <;> cases quiet <;>
    simp [check, check_gate, check_nextflow, check_singularity]

/-- C7: every map call performs exactly one external invocation, whose
argument list is exactly the tool name, the run subcommand, the fixed
pipeline-script identifier and the tools flag, with the flag last and no
value after it. -/
theorem map_invokes_fixed_command (cfg : Config) (s : Bool) (cmd : List String) :
    (Event.invoke cmd ∈ (map cfg s).events ↔
      cmd = ["nextflow", "run", "SciLifeLab/Sarek/main.nf", "--tools"]) ∧
    mapCmd.getLast? = some "--tools" := by
  cases s <;> simp [map, mapCmd]

/-- C8: once mappedfiles holds a value, neither map (either outcome) nor
annotate resets it to none: map leaves it set and annotate does not touch
the configuration at all. -/
theorem mappedfiles_never_cleared (cfg : Config) (s : Bool) (v : String)
    (h : cfg.mappedfiles = some v) :
    (map cfg s).config.mappedfiles ≠ none ∧
    (annotate cfg).config.mappedfiles = some v := by
  rcases cfg with ⟨t, mf⟩
  cases s <;> simp_all [map, annotate]

/-- C8 witness: the invariant instantiated at a concrete configuration with
mappedfiles already set, under a failing map. -/
theorem mappedfiles_never_cleared_witness :
    (map { tsv := "t", mappedfiles := some "m" } false).config.mappedfiles ≠ none ∧
    (annotate { tsv := "t", mappedfiles := some "m" }).config.mappedfiles = some "m" :=
  mappedfiles_never_cleared { tsv := "t", mappedfiles := some "m" } false "m" rfl

/-- C9: every map call prints the old path, then overwrites tsv with the
fixed constant, then invokes the external process, in that order, so the
construction-time path is lost and a subsequent annotate prints the
constant, not the original path. -/
theorem map_overwrites_tsv (cfg : Config) (s : Bool) :
    (map cfg s).config.tsv = "something new" ∧
    (map cfg s).events =
      [Event.print cfg.tsv, Event.setTsv "something new", Event.invoke mapCmd] ∧
    (annotate (map cfg s).config).events.head? = some (Event.print "something new") := by
  rcases cfg with ⟨t, mf⟩
  cases s <;> cases mf <;> simp [map, annotate, mapCmd]

/-- C10: in the literal model, every map call raises AttributeError for
subprocess.check before mappedfiles can be set, leaves mappedfiles exactly
as it was, and a runner built from any path therefore never reaches the
mapped state: the subsequent annotate logs the critical message and exits
with status 1. -/
theorem mapLiteral_always_raises (cfg : Config) (p : String) (s : Bool) :
    (mapLiteral cfg s).2 = some (PyError.attributeError "subprocess" "check") ∧
    (mapLiteral cfg s).1.config.mappedfiles = cfg.mappedfiles ∧
    (mapLiteral (init p) s).1.config.mappedfiles = none ∧
    (annotate (mapLiteral (init p) s).1.config).exited = some 1 ∧
    Event.logCritical "Annotation needs mapped files" ∈
      (annotate (mapLiteral (init p) s).1.config).events := by
  have hc : "check" ∉ subprocessHelpers := by decide
  cases s <;> simp [mapLiteral, hc, init, annotate, map]

end SarekWrapper
